import Mathlib

/-!
Shallow embedding of the JETSON_Server FastAPI application (src/main.py):
the connection registry (ConnectionManager), the latest-state caches
(last_sensor_data, last_action), the ingress handlers (POST /sensors,
POST /actions, the ws/robot and ws/dashboard endpoints) and the startup
seeding, together with proofs about the frozen claim list.

Modelling conventions:
* A live WebSocket connection is an opaque identifier (Nat).
* Python/JSON numbers are embedded as rationals: every value json.loads
  produces from a JSON numeric literal is an exact decimal, and Python's
  max/min comparisons on them are exact, so rationals are a faithful
  carrier for the motor arithmetic of the source.
* The SQLite store is a list of records appended in commit order; a
  freshly committed row's autoincrement id is (previous length + 1).
* Fallible externals are parameters: a durable-store commit is an
  `Except String Unit` (ok, or the exception text), a per-connection
  send failure is a `Conn -> Bool` predicate, wall-clock reads and
  datetime.utcnow().isoformat() are explicit arguments.
* Python's for-loop over a list holds a bare index into the live list;
  the broadcast loop below reproduces that exactly (including the
  behaviour when the loop body removes the current element), using a
  fuel argument that is provably large enough (the index grows by one
  per iteration and the list never grows).
-/

/-- A live WebSocket connection, identified opaquely. -/
abbrev Conn := Nat

/-- JSON values as produced by json.loads, as far as the robot-socket
handler inspects them.  Numbers (ints and floats) and booleans compare
numerically in Python; null, strings and arrays raise TypeError inside
max/min. -/
inductive JsonVal where
  | null
  | bool (b : Bool)
  | num (q : ℚ)
  | str (s : String)
deriving DecidableEq

/-- Looking a key up in a parsed JSON object: json.loads builds a dict,
so a duplicated key keeps its last occurrence. -/
def jsonGet (fields : List (String × JsonVal)) (k : String) : Option JsonVal :=
  fields.reverse.lookup k

/-- The Python type name, as it appears in a TypeError message. -/
def pyTypeName : JsonVal → String
  | .null => "NoneType"
  | .bool _ => "bool"
  | .num _ => "number"
  | .str _ => "str"

/-- Python's two-argument min: the first argument on ties.  (Stated as a
conditional so that it also evaluates inside the kernel.) -/
def pyMin {α : Type} [LE α] [DecidableRel (α := α) (· ≤ ·)] (a b : α) : α :=
  if a ≤ b then a else b

/-- Python's two-argument max: the first argument on ties. -/
def pyMax {α : Type} [LE α] [DecidableRel (α := α) (· ≤ ·)] (a b : α) : α :=
  if b ≤ a then a else b

/-- max(-100, min(100, q)) over numbers (src/main.py lines 437-438). -/
def clampQ (q : ℚ) : ℚ := pyMax (-100) (pyMin 100 q)

/-- max(-100, min(100, x)) over validated integers (src/main.py lines 240-241). -/
def clampInt (x : Int) : Int := pyMax (-100) (pyMin 100 x)

/-- Evaluating max(-100, min(100, v)) on a raw JSON value, as the robot
socket handler does: numbers and booleans (Python bools are ints)
succeed, anything else raises TypeError.  The message abbreviates
CPython's wording (quotes omitted). -/
def clampVal : JsonVal → Except String ℚ
  | .num q => .ok (clampQ q)
  | .bool b => .ok (clampQ (if b then 1 else 0))
  | v => .error ("TypeError: < not supported between instances of "
      ++ pyTypeName v ++ " and int")

/-- A row of the action_data table (src/main.py class ActionData). -/
structure ActionRec where
  id : Nat
  timestamp : ℚ
  left_motor : ℚ
  right_motor : ℚ
  source : String
  created_at : String
deriving DecidableEq

/-- The module-level last_action dict (src/main.py line 105).  It starts
as (left_motor 0, right_motor 0, timestamp None, source None) with no id
and no created_at key; fields that may be missing or None are Options. -/
structure LastAction where
  id : Option Nat
  left_motor : ℚ
  right_motor : ℚ
  timestamp : Option ℚ
  source : Option String
  created_at : Option String
deriving DecidableEq

/-- The IRSensorData payload model (proximity, remote_buttons,
beacon_distance, beacon_heading; each optional). -/
structure IRSensorData where
  proximity : Option Int
  remote_buttons : Option JsonVal
  beacon_distance : Option Int
  beacon_heading : Option Int
deriving DecidableEq

/-- The RobotInfo payload model. -/
structure RobotInfo where
  platform : String
  python_version : String
deriving DecidableEq

/-- The SensorPayload pydantic model accepted by POST /sensors. -/
structure SensorPayload where
  sample_id : Int
  timestamp : ℚ
  ir_sensor : IRSensorData
  robot_info : RobotInfo
deriving DecidableEq

/-- A row of the sensor_data table (src/main.py class SensorData). -/
structure SensorRec where
  id : Nat
  sample_id : Int
  timestamp : ℚ
  ir_sensor : IRSensorData
  robot_info : RobotInfo
  created_at : String
deriving DecidableEq

/-- The module-level last_sensor_data dict once populated (sample_id,
timestamp, ir_sensor, robot_info, db_id, created_at). -/
structure SensorCache where
  sample_id : Int
  timestamp : ℚ
  ir_sensor : IRSensorData
  robot_info : RobotInfo
  db_id : Nat
  created_at : String
deriving DecidableEq

/-- The cache entry built from a stored row (startup seeding and the
GET /sensors/latest fallback rebuild it this way). -/
def sensorCacheOfRec (r : SensorRec) : SensorCache :=
  ⟨r.sample_id, r.timestamp, r.ir_sensor, r.robot_info, r.id, r.created_at⟩

/-- The whole mutable server state: the two SQLite tables, the two
module-level caches, and the two connection pools of the
ConnectionManager. -/
structure ServerState where
  actionStore : List ActionRec
  sensorStore : List SensorRec
  lastAction : LastAction
  lastSensor : Option SensorCache
  dashboards : List Conn
  robots : List Conn
deriving DecidableEq

/-- The state at module load: empty tables, last_action at its literal
default, last_sensor_data empty, no connections. -/
def initialState : ServerState :=
  { actionStore := []
    sensorStore := []
    lastAction := ⟨none, 0, 0, none, none, none⟩
    lastSensor := none
    dashboards := []
    robots := [] }

/-- ConnectionManager.disconnect_dashboard / disconnect_robot body:
remove the connection from the pool only if it is present. -/
def disconnectPool (pool : List Conn) (ws : Conn) : List Conn :=
  if ws ∈ pool then pool.erase ws else pool

/-- ConnectionManager.disconnect_dashboard lifted to the server state. -/
def disconnect_dashboard (st : ServerState) (ws : Conn) : ServerState :=
  { st with dashboards := disconnectPool st.dashboards ws }

/-- ConnectionManager.disconnect_robot lifted to the server state. -/
def disconnect_robot (st : ServerState) (ws : Conn) : ServerState :=
  { st with robots := disconnectPool st.robots ws }

/-- One Python for-loop over a live list of connections, sending to each
and pruning a connection whose send raises.  The iterator is a bare
index: yielding advances it, and a removal of the just-yielded element
shifts the remainder left under it, so the element after a pruned one is
never yielded.  The fuel only bounds the iteration count; since the
index grows by one per step and the list never grows, fuel equal to the
initial length is exact (when it runs out the index is already past the
end, and the exhausted branch returns the same pair the loop exit
would). -/
def pySendAll (fails : Conn → Bool) :
    Nat → List Conn → Nat → List Conn → List Conn × List Conn
  | 0, pool, _, delivered => (pool, delivered)
  | fuel + 1, pool, i, delivered =>
    if h : i < pool.length then
      let c := pool.get ⟨i, h⟩
      if fails c then
        pySendAll fails fuel (disconnectPool pool c) (i + 1) delivered
      else
        pySendAll fails fuel pool (i + 1) (delivered ++ [c])
    else (pool, delivered)

/-- ConnectionManager.broadcast_sensor_data: send to every dashboard in
the live pool, pruning on failure.  Returns the pool after the call and
the connections that actually received the message, in send order. -/
def broadcast_sensor_data (fails : Conn → Bool) (pool : List Conn) :
    List Conn × List Conn :=
  pySendAll fails pool.length pool 0 []

/-- ConnectionManager.send_action_to_robot: the same loop over the robot
pool. -/
def send_action_to_robot (fails : Conn → Bool) (pool : List Conn) :
    List Conn × List Conn :=
  pySendAll fails pool.length pool 0 []

/-- A payload the server writes to some WebSocket (the shapes of
src/main.py's send_json calls). -/
inductive WsPayload where
  | errPayload (msg : String)
  | ackPayload (left_motor right_motor : ℚ) (timestamp : ℚ) (id : Nat)
  | actionUpdate (action : LastAction) (timestamp : ℚ)
  | motorControl (left_motor right_motor : ℚ) (timestamp : ℚ) (source : String)
  | sensorBroadcast (s : SensorCache)
  | initialData (sensors : SensorCache) (last_action : LastAction)
deriving DecidableEq

/-- The ActionPayload pydantic model of POST /actions.  Field constraints
ge=-100 and le=100 are checked by the framework before the handler runs;
source defaults to "api" when the key is absent, and may still arrive as
None (JSON null). -/
structure ActionPayload where
  left_motor : Int
  right_motor : Int
  source : Option String
deriving DecidableEq

/-- The pydantic range validation of ActionPayload: both motors must
satisfy ge=-100 and le=100 or the request is refused with a validation
error before create_action runs. -/
def validActionPayload (p : ActionPayload) : Bool :=
  (-100 ≤ p.left_motor && p.left_motor ≤ 100)
    && (-100 ≤ p.right_motor && p.right_motor ≤ 100)

/-- Python's `action.source or "api"`: None and the empty string are
falsy and fall back to "api". -/
def sourceOr (s : Option String) : String :=
  match s with
  | none => "api"
  | some s => if s = "" then "api" else s

/-- What POST /actions answers. -/
inductive ActionResult where
  | created (record : ActionRec)
  | unprocessable
  | serverError (detail : String)
deriving DecidableEq

/-- What POST /sensors answers. -/
inductive SensorResult where
  | okStored (id : Nat) (sample_id : Int)
  | serverError (detail : String)
deriving DecidableEq

/-- The create_action handler of POST /actions, including the pydantic
gate that runs before it.  `storage` is the outcome of the
add/commit/refresh sequence; on failure the handler rolls back and
answers HTTP 500 without touching the cache or broadcasting.  On success
it appends the record, overwrites last_action, relays motor_control to
every robot and broadcasts action_update to every dashboard (the two
send loops prune connections whose send fails).  The result carries the
state after the call, the HTTP response, and every (connection, payload)
actually delivered over WebSockets. -/
def create_action (storage : Except String Unit) (now : ℚ) (createdAt : String)
    (failsD failsR : Conn → Bool) (p : ActionPayload) (st : ServerState) :
    ServerState × ActionResult × List (Conn × WsPayload) :=
  if validActionPayload p = true then
    let lm := clampInt p.left_motor
    let rm := clampInt p.right_motor
    match storage with
    | .error e => (st, .serverError ("Error storing action: " ++ e), [])
    | .ok _ =>
      let r0 : ActionRec :=
        ⟨st.actionStore.length + 1, now, (lm : ℚ), (rm : ℚ), sourceOr p.source, createdAt⟩
      let la : LastAction :=
        ⟨some r0.id, (lm : ℚ), (rm : ℚ), some now, some r0.source, some createdAt⟩
      let st1 := { st with actionStore := st.actionStore ++ [r0], lastAction := la }
      let robotSend := send_action_to_robot failsR st1.robots
      let st2 := { st1 with robots := robotSend.1 }
      let dashSend := broadcast_sensor_data failsD st2.dashboards
      let st3 := { st2 with dashboards := dashSend.1 }
      (st3, .created r0,
        robotSend.2.map (fun c => (c, WsPayload.motorControl (lm : ℚ) (rm : ℚ) now r0.source))
          ++ dashSend.2.map (fun c => (c, WsPayload.actionUpdate la now)))
  else (st, .unprocessable, [])

/-- The store_sensor_data handler of POST /sensors: on a successful
commit it overwrites last_sensor_data with the payload plus db_id and
created_at, then broadcasts the cache to every dashboard; on a commit
failure it rolls back and answers HTTP 500 with the cache untouched and
no broadcast. -/
def store_sensor_data (storage : Except String Unit) (createdAt : String)
    (failsD : Conn → Bool) (p : SensorPayload) (st : ServerState) :
    ServerState × SensorResult × List (Conn × WsPayload) :=
  match storage with
  | .error e => (st, .serverError ("Error storing sensor data: " ++ e), [])
  | .ok _ =>
    let r0 : SensorRec :=
      ⟨st.sensorStore.length + 1, p.sample_id, p.timestamp, p.ir_sensor, p.robot_info, createdAt⟩
    let cache : SensorCache :=
      ⟨p.sample_id, p.timestamp, p.ir_sensor, p.robot_info, r0.id, createdAt⟩
    let st1 := { st with sensorStore := st.sensorStore ++ [r0], lastSensor := some cache }
    let dashSend := broadcast_sensor_data failsD st1.dashboards
    ({ st1 with dashboards := dashSend.1 }, .okStored r0.id p.sample_id,
      dashSend.2.map (fun c => (c, WsPayload.sensorBroadcast cache)))

/-- One inbound frame on the robot WebSocket: either text json.loads
rejects, or a parsed JSON object.  (The claims quantify only over these
two shapes.) -/
inductive RobotMsg where
  | malformed (raw : String)
  | obj (fields : List (String × JsonVal))

/-- One iteration of the robot_websocket receive loop on an inbound
frame: parse, check both motor keys, evaluate the two clamps (left
first; a TypeError there is answered as an error payload), then
add/commit/refresh; on a commit failure roll back and answer a Database
error with nothing mutated; on success overwrite last_action, send the
acknowledgment back on the same connection, and broadcast action_update
to the dashboards.  Returns the state after the frame, the replies sent
back on this connection, and the dashboard deliveries. -/
def robot_websocket_step (storage : Except String Unit) (now : ℚ)
    (createdAt : String) (failsD : Conn → Bool) (msg : RobotMsg)
    (st : ServerState) :
    ServerState × List WsPayload × List (Conn × WsPayload) :=
  match msg with
  | .malformed _ => (st, [.errPayload "Invalid JSON"], [])
  | .obj fields =>
    match jsonGet fields "left_motor", jsonGet fields "right_motor" with
    | none, _ => (st, [.errPayload "Invalid action format"], [])
    | some _, none => (st, [.errPayload "Invalid action format"], [])
    | some lv, some rv =>
      match clampVal lv with
      | .error e => (st, [.errPayload e], [])
      | .ok lm =>
        match clampVal rv with
        | .error e => (st, [.errPayload e], [])
        | .ok rm =>
          match storage with
          | .error e => (st, [.errPayload ("Database error: " ++ e)], [])
          | .ok _ =>
            let r0 : ActionRec :=
              ⟨st.actionStore.length + 1, now, lm, rm, "websocket", createdAt⟩
            let la : LastAction :=
              ⟨some r0.id, lm, rm, some now, some "websocket", some createdAt⟩
            let st1 := { st with actionStore := st.actionStore ++ [r0], lastAction := la }
            let dashSend := broadcast_sensor_data failsD st1.dashboards
            ({ st1 with dashboards := dashSend.1 },
              [.ackPayload lm rm now r0.id],
              dashSend.2.map (fun c => (c, WsPayload.actionUpdate la now)))

/-- A dashboard connecting on ws/dashboard: accept and register, then,
if last_sensor_data is non-empty, send initial_data carrying the sensor
cache and the last_action dict as they stand (a failure of that send is
swallowed).  Returns the new state and the payload delivered to the new
connection, if any. -/
def dashboard_websocket_connect (sendOk : Bool) (ws : Conn) (st : ServerState) :
    ServerState × Option WsPayload :=
  let st1 := { st with dashboards := st.dashboards ++ [ws] }
  match st.lastSensor with
  | some s => (st1, if sendOk then some (.initialData s st.lastAction) else none)
  | none => (st1, none)

/-- A robot connecting on ws/robot: accept and register. -/
def connect_robot (ws : Conn) (st : ServerState) : ServerState :=
  { st with robots := st.robots ++ [ws] }

/-- order_by(desc(timestamp)).first() over a table: an element of
maximal timestamp (the earliest such, ties in the source being decided
by the database). -/
def mostRecentBy {α : Type} (f : α → ℚ) : List α → Option α
  | [] => none
  | x :: xs =>
    match mostRecentBy f xs with
    | none => some x
    | some b => if f b ≤ f x then some x else some b

/-- The startup event: seed last_sensor_data and last_action from the
most recent stored row of each table (two independent queries), leaving
each cache alone when its table is empty. -/
def startup_event (st : ServerState) : ServerState :=
  { st with
      lastSensor :=
        match mostRecentBy (fun r => r.timestamp) st.sensorStore with
        | some r => some (sensorCacheOfRec r)
        | none => st.lastSensor
      lastAction :=
        match mostRecentBy (fun r => r.timestamp) st.actionStore with
        | some r =>
          ⟨some r.id, r.left_motor, r.right_motor, some r.timestamp, some r.source,
            some r.created_at⟩
        | none => st.lastAction }

/-- GET /sensors/latest: answer the cache when non-empty; otherwise
rebuild it from the most recent stored row; 404 (modelled as none) when
both are empty. -/
def get_latest_sensor_data (st : ServerState) : ServerState × Option SensorCache :=
  match st.lastSensor with
  | some c => (st, some c)
  | none =>
    match mostRecentBy (fun r => r.timestamp) st.sensorStore with
    | some r => ({ st with lastSensor := some (sensorCacheOfRec r) }, some (sensorCacheOfRec r))
    | none => (st, none)

/-- One externally triggered operation on the server, with its
environment (storage outcome, clock, failing connections) packed in. -/
inductive Event where
  | startup
  | postSensor (storage : Except String Unit) (createdAt : String)
      (failsD : Conn → Bool) (p : SensorPayload)
  | postAction (storage : Except String Unit) (now : ℚ) (createdAt : String)
      (failsD failsR : Conn → Bool) (p : ActionPayload)
  | robotMsg (storage : Except String Unit) (now : ℚ) (createdAt : String)
      (failsD : Conn → Bool) (msg : RobotMsg)
  | connectDashboard (sendOk : Bool) (ws : Conn)
  | connectRobot (ws : Conn)
  | dashDisconnect (ws : Conn)
  | robotDisconnect (ws : Conn)

/-- The state transition an event performs (outputs projected away). -/
def srvStep : Event → ServerState → ServerState
  | .startup, st => startup_event st
  | .postSensor s cA fD p, st => (store_sensor_data s cA fD p st).1
  | .postAction s now cA fD fR p, st => (create_action s now cA fD fR p st).1
  | .robotMsg s now cA fD m, st => (robot_websocket_step s now cA fD m st).1
  | .connectDashboard ok ws, st => (dashboard_websocket_connect ok ws st).1
  | .connectRobot ws, st => connect_robot ws st
  | .dashDisconnect ws, st => disconnect_dashboard st ws
  | .robotDisconnect ws, st => disconnect_robot st ws

/-- Running a sequence of events. -/
def srvRun (evs : List Event) (st : ServerState) : ServerState :=
  evs.foldl (fun s e => srvStep e s) st

/-- Whether an Except landed in ok. -/
def exceptOk {α : Type} (e : Except String α) : Bool :=
  match e with
  | .ok _ => true
  | .error _ => false

/-- Whether a robot-socket frame reaches a successful commit (and hence
updates the cache): it parses, carries both motor keys, both clamps
evaluate, and the commit succeeds. -/
def commits (storage : Except String Unit) : RobotMsg → Bool
  | .malformed _ => false
  | .obj fields =>
    match jsonGet fields "left_motor", jsonGet fields "right_motor" with
    | some lv, some rv =>
      exceptOk (clampVal lv) && exceptOk (clampVal rv) && exceptOk storage
    | _, _ => false

/-- An event during which no command is accepted into the store or
seeded from it: no startup, no POST /actions that passes validation with
a successful commit, no robot frame that commits. -/
def CommandFree : Event → Prop
  | .startup => False
  | .postAction storage _ _ _ _ p =>
    ¬(validActionPayload p = true ∧ exceptOk storage = true)
  | .robotMsg storage _ _ _ m => commits storage m = false
  | _ => True

/-- A sequence of successful POST /sensors ingests, each with its own
created_at stamp. -/
def runSensorIngests (items : List (SensorPayload × String)) (failsD : Conn → Bool)
    (st : ServerState) : ServerState :=
  items.foldl (fun s pc => (store_sensor_data (Except.ok ()) pc.2 failsD pc.1 s).1) st

/-- Both cached motor setpoints lie in [-100, 100]. -/
def motorsInRange (la : LastAction) : Prop :=
  -100 ≤ la.left_motor ∧ la.left_motor ≤ 100
    ∧ -100 ≤ la.right_motor ∧ la.right_motor ≤ 100

/-- Every stored action row has both motors in [-100, 100]. -/
def actionStoreInRange (l : List ActionRec) : Prop :=
  ∀ r ∈ l, -100 ≤ r.left_motor ∧ r.left_motor ≤ 100
    ∧ -100 ≤ r.right_motor ∧ r.right_motor ≤ 100

/-- The command-side invariant: cache and store motors all in range. -/
def cmdInv (st : ServerState) : Prop :=
  motorsInRange st.lastAction ∧ actionStoreInRange st.actionStore

/-- A concrete non-empty server state used to instantiate theorems with
hypotheses. -/
def sampleState : ServerState :=
  { initialState with
      dashboards := [1, 2]
      robots := [3] }

/-- A concrete telemetry payload used to instantiate theorems with
hypotheses. -/
def samplePayload : SensorPayload :=
  ⟨7, 10, ⟨some 42, none, none, none⟩, ⟨"EV3", "ev3dev2"⟩⟩

/-! ### Helper lemmas about the clamps, the seeding query and the handlers -/

theorem clampQ_mem (q : ℚ) : -100 ≤ clampQ q ∧ clampQ q ≤ 100 := by
  simp only [clampQ, pyMax, pyMin]
  split_ifs <;> constructor <;> linarith

theorem clampInt_mem (x : Int) : -100 ≤ clampInt x ∧ clampInt x ≤ 100 := by
  simp only [clampInt, pyMax, pyMin]
  split_ifs <;> omega

theorem clampInt_eq_self {x : Int} (h1 : -100 ≤ x) (h2 : x ≤ 100) :
    clampInt x = x := by
  simp only [clampInt, pyMax, pyMin]
  split_ifs <;> omega

theorem clampIntQ_mem (x : Int) :
    -100 ≤ ((clampInt x : Int) : ℚ) ∧ ((clampInt x : Int) : ℚ) ≤ 100 := by
  obtain ⟨h1, h2⟩ := clampInt_mem x
  constructor <;> exact_mod_cast ‹_›

theorem clampVal_ok_mem {v : JsonVal} {q : ℚ} (h : clampVal v = Except.ok q) :
    -100 ≤ q ∧ q ≤ 100 := by
  cases v with
  | num q' =>
    simp only [clampVal, Except.ok.injEq] at h
    subst h; exact clampQ_mem q'
  | bool b =>
    simp only [clampVal, Except.ok.injEq] at h
    subst h; exact clampQ_mem _
  | null => simp [clampVal] at h
  | str s => simp [clampVal] at h

theorem mostRecentBy_mem {α : Type} (f : α → ℚ) (l : List α) (a : α)
    (h : mostRecentBy f l = some a) : a ∈ l := by
  induction l with
  | nil => simp [mostRecentBy] at h
  | cons x xs ih =>
    cases hm : mostRecentBy f xs with
    | none =>
      simp only [mostRecentBy, hm, Option.some.injEq] at h
      subst h; exact List.mem_cons_self _ _
    | some b =>
      simp only [mostRecentBy, hm] at h
      split at h <;> simp only [Option.some.injEq] at h <;> subst h
      · exact List.mem_cons_self _ _
      · exact List.mem_cons_of_mem _ (ih hm)

theorem store_sensor_frame (storage : Except String Unit) (cA : String)
    (fD : Conn → Bool) (p : SensorPayload) (st : ServerState) :
    (store_sensor_data storage cA fD p st).1.lastAction = st.lastAction
      ∧ (store_sensor_data storage cA fD p st).1.actionStore = st.actionStore
      ∧ (store_sensor_data storage cA fD p st).1.robots = st.robots := by
  cases storage <;> exact ⟨rfl, rfl, rfl⟩

theorem create_action_lastSensor (storage : Except String Unit) (now : ℚ)
    (cA : String) (fD fR : Conn → Bool) (p : ActionPayload) (st : ServerState) :
    (create_action storage now cA fD fR p st).1.lastSensor = st.lastSensor := by
  unfold create_action
  split
  · cases storage <;> rfl
  · rfl

theorem create_action_shape (storage : Except String Unit) (now : ℚ)
    (cA : String) (fD fR : Conn → Bool) (p : ActionPayload) (st : ServerState) :
    (create_action storage now cA fD fR p st).1 = st
      ∨ ∃ lm rm : ℚ, (-100 ≤ lm ∧ lm ≤ 100) ∧ (-100 ≤ rm ∧ rm ≤ 100)
          ∧ (create_action storage now cA fD fR p st).1 =
            { st with
                actionStore := st.actionStore ++
                  [⟨st.actionStore.length + 1, now, lm, rm, sourceOr p.source, cA⟩]
                lastAction := ⟨some (st.actionStore.length + 1), lm, rm, some now,
                  some (sourceOr p.source), some cA⟩
                robots := (send_action_to_robot fR st.robots).1
                dashboards := (broadcast_sensor_data fD st.dashboards).1 } := by
  by_cases hv : validActionPayload p = true
  · cases storage with
    | error e => left; simp [create_action, hv]
    | ok u =>
      right
      refine ⟨(clampInt p.left_motor : ℚ), (clampInt p.right_motor : ℚ),
        clampIntQ_mem _, clampIntQ_mem _, ?_⟩
      simp [create_action, hv]
  · left; simp [create_action, hv]

theorem robot_step_shape (storage : Except String Unit) (now : ℚ) (cA : String)
    (fD : Conn → Bool) (msg : RobotMsg) (st : ServerState) :
    (robot_websocket_step storage now cA fD msg st).1 = st
      ∨ ∃ lm rm : ℚ, (-100 ≤ lm ∧ lm ≤ 100) ∧ (-100 ≤ rm ∧ rm ≤ 100)
          ∧ (robot_websocket_step storage now cA fD msg st).1 =
            { st with
                actionStore := st.actionStore ++
                  [⟨st.actionStore.length + 1, now, lm, rm, "websocket", cA⟩]
                lastAction := ⟨some (st.actionStore.length + 1), lm, rm, some now,
                  some "websocket", some cA⟩
                dashboards := (broadcast_sensor_data fD st.dashboards).1 } := by
  cases msg with
  | malformed raw => left; rfl
  | obj fields =>
    rcases hL : jsonGet fields "left_motor" with _ | lv
    · left; simp [robot_websocket_step, hL]
    rcases hR : jsonGet fields "right_motor" with _ | rv
    · left; simp [robot_websocket_step, hL, hR]
    rcases hcl : clampVal lv with e | lm
    · left; simp [robot_websocket_step, hL, hR, hcl]
    rcases hcr : clampVal rv with e | rm
    · left; simp [robot_websocket_step, hL, hR, hcl, hcr]
    cases storage with
    | error e => left; simp [robot_websocket_step, hL, hR, hcl, hcr]
    | ok u =>
      right
      refine ⟨lm, rm, clampVal_ok_mem hcl, clampVal_ok_mem hcr, ?_⟩
      simp [robot_websocket_step, hL, hR, hcl, hcr]

theorem robot_step_state_of_not_commits {storage : Except String Unit} {now : ℚ}
    {cA : String} {fD : Conn → Bool} {msg : RobotMsg} {st : ServerState}
    (h : commits storage msg = false) :
    (robot_websocket_step storage now cA fD msg st).1 = st := by
  cases msg with
  | malformed raw => rfl
  | obj fields =>
    rcases hL : jsonGet fields "left_motor" with _ | lv
    · simp [robot_websocket_step, hL]
    rcases hR : jsonGet fields "right_motor" with _ | rv
    · simp [robot_websocket_step, hL, hR]
    rcases hcl : clampVal lv with e | lm
    · simp [robot_websocket_step, hL, hR, hcl]
    rcases hcr : clampVal rv with e | rm
    · simp [robot_websocket_step, hL, hR, hcl, hcr]
    cases storage with
    | error e => simp [robot_websocket_step, hL, hR, hcl, hcr]
    | ok u =>
      exfalso
      simp [commits, hL, hR, hcl, hcr, exceptOk] at h

theorem startup_shape (st : ServerState) :
    (startup_event st).actionStore = st.actionStore
      ∧ ((startup_event st).lastAction = st.lastAction
        ∨ ∃ r ∈ st.actionStore, (startup_event st).lastAction =
            ⟨some r.id, r.left_motor, r.right_motor, some r.timestamp, some r.source,
              some r.created_at⟩) := by
  refine ⟨rfl, ?_⟩
  cases h2 : mostRecentBy (fun r => r.timestamp) st.actionStore with
  | none => exact Or.inl (by simp [startup_event, h2])
  | some r => exact Or.inr ⟨r, mostRecentBy_mem _ _ _ h2, by simp [startup_event, h2]⟩

theorem dashboard_connect_state (sendOk : Bool) (ws : Conn) (st : ServerState) :
    (dashboard_websocket_connect sendOk ws st).1 =
      { st with dashboards := st.dashboards ++ [ws] } := by
  unfold dashboard_websocket_connect
  cases st.lastSensor <;> rfl

theorem cmdInv_step (ev : Event) (st : ServerState) (h : cmdInv st) :
    cmdInv (srvStep ev st) := by
  obtain ⟨hla, hst⟩ := h
  cases ev with
  | startup =>
    obtain ⟨ha, hl⟩ := startup_shape st
    constructor
    · rcases hl with hl | ⟨r, hr, hl⟩
      · show motorsInRange (startup_event st).lastAction
        rw [hl]; exact hla
      · show motorsInRange (startup_event st).lastAction
        rw [hl]
        simpa [motorsInRange] using hst r hr
    · show actionStoreInRange (startup_event st).actionStore
      rw [ha]; exact hst
  | postSensor s cA fD p =>
    obtain ⟨h1, h2, _⟩ := store_sensor_frame s cA fD p st
    exact ⟨by simp only [srvStep]; rw [h1]; exact hla,
      by simp only [srvStep]; rw [h2]; exact hst⟩
  | postAction s now cA fD fR p =>
    rcases create_action_shape s now cA fD fR p st with he | ⟨lm, rm, hlm, hrm, he⟩
    · simp only [srvStep]; rw [he]; exact ⟨hla, hst⟩
    · simp only [srvStep]; rw [he]
      constructor
      · exact ⟨hlm.1, hlm.2, hrm.1, hrm.2⟩
      · intro r hr
        rcases List.mem_append.mp hr with hr | hr
        · exact hst r hr
        · rw [List.mem_singleton.mp hr]
          exact ⟨hlm.1, hlm.2, hrm.1, hrm.2⟩
  | robotMsg s now cA fD m =>
    rcases robot_step_shape s now cA fD m st with he | ⟨lm, rm, hlm, hrm, he⟩
    · simp only [srvStep]; rw [he]; exact ⟨hla, hst⟩
    · simp only [srvStep]; rw [he]
      constructor
      · exact ⟨hlm.1, hlm.2, hrm.1, hrm.2⟩
      · intro r hr
        rcases List.mem_append.mp hr with hr | hr
        · exact hst r hr
        · rw [List.mem_singleton.mp hr]
          exact ⟨hlm.1, hlm.2, hrm.1, hrm.2⟩
  | connectDashboard ok ws =>
    simp only [srvStep]; rw [dashboard_connect_state]; exact ⟨hla, hst⟩
  | connectRobot ws => exact ⟨hla, hst⟩
  | dashDisconnect ws => exact ⟨hla, hst⟩
  | robotDisconnect ws => exact ⟨hla, hst⟩

theorem cmdInv_initial : cmdInv initialState := by
  constructor
  · refine ⟨?_, ?_, ?_, ?_⟩ <;> norm_num [initialState]
  · intro r hr
    simp [initialState] at hr

theorem cmdInv_run (evs : List Event) (st : ServerState) (h : cmdInv st) :
    cmdInv (srvRun evs st) := by
  induction evs generalizing st with
  | nil => exact h
  | cons e es ih => exact ih _ (cmdInv_step e st h)

theorem step_lastAction_of_commandFree {ev : Event} {st : ServerState}
    (h : CommandFree ev) : (srvStep ev st).lastAction = st.lastAction := by
  cases ev with
  | startup => exact h.elim
  | postSensor s cA fD p => exact (store_sensor_frame s cA fD p st).1
  | postAction s now cA fD fR p =>
    by_cases hv : validActionPayload p = true
    · cases s with
      | ok u => exact absurd ⟨hv, rfl⟩ h
      | error e => simp only [srvStep]; simp [create_action, hv]
    · simp only [srvStep]; simp [create_action, hv]
  | robotMsg s now cA fD m =>
    exact congrArg ServerState.lastAction (robot_step_state_of_not_commits h)
  | connectDashboard ok ws =>
    simp only [srvStep]; rw [dashboard_connect_state]
  | connectRobot ws => rfl
  | dashDisconnect ws => rfl
  | robotDisconnect ws => rfl

theorem run_lastAction_of_commandFree {evs : List Event} {st : ServerState}
    (h : ∀ ev ∈ evs, CommandFree ev) :
    (srvRun evs st).lastAction = st.lastAction := by
  induction evs generalizing st with
  | nil => rfl
  | cons e es ih =>
    calc (srvRun (e :: es) st).lastAction
        = (srvRun es (srvStep e st)).lastAction := rfl
      _ = (srvStep e st).lastAction :=
          ih (fun ev hev => h ev (List.mem_cons_of_mem _ hev))
      _ = st.lastAction := step_lastAction_of_commandFree (h e (List.mem_cons_self _ _))

theorem step_lastSensor_isSome {ev : Event} {st : ServerState}
    (h : st.lastSensor.isSome = true) :
    (srvStep ev st).lastSensor.isSome = true := by
  cases ev with
  | startup =>
    simp only [srvStep, startup_event]
    cases h1 : mostRecentBy (fun r => r.timestamp) st.sensorStore <;> simp [h1, h]
  | postSensor s cA fD p =>
    cases s with
    | error e => exact h
    | ok u => rfl
  | postAction s now cA fD fR p =>
    simp only [srvStep]; rw [create_action_lastSensor]; exact h
  | robotMsg s now cA fD m =>
    rcases robot_step_shape s now cA fD m st with he | ⟨lm, rm, _, _, he⟩
    · simp only [srvStep]; rw [he]; exact h
    · simp only [srvStep]; rw [he]; exact h
  | connectDashboard ok ws =>
    simp only [srvStep]; rw [dashboard_connect_state]; exact h
  | connectRobot ws => exact h
  | dashDisconnect ws => exact h
  | robotDisconnect ws => exact h

theorem run_lastSensor_isSome {evs : List Event} {st : ServerState}
    (h : st.lastSensor.isSome = true) :
    (srvRun evs st).lastSensor.isSome = true := by
  induction evs generalizing st with
  | nil => exact h
  | cons e es ih => exact ih (step_lastSensor_isSome h)

theorem sensor_ingest_cache (cA : String) (fD : Conn → Bool) (p : SensorPayload)
    (st : ServerState) :
    (store_sensor_data (Except.ok ()) cA fD p st).1.lastSensor =
      some ⟨p.sample_id, p.timestamp, p.ir_sensor, p.robot_info,
        st.sensorStore.length + 1, cA⟩ := rfl

/-! ### The claims -/

/-- C1: evaluating broadcast_sensor_data at the failing input.  In a pool
of two registered connections where connection 1's send fails, connection
1 is pruned from the pool as the claim states, but the delivered set is
empty: the surviving connection 2 never receives the message, because the
loop iterates the live list while disconnect_dashboard shifts it.  In a
pool of three with connection 1 failing, only connection 3 receives the
message and connection 2 is skipped.  This refutes delivery to each of
the other K-1 connections. -/
theorem broadcast_failure_prunes_but_skips_successor :
    broadcast_sensor_data (fun c => c == 1) [1, 2] = ([2], [])
      ∧ broadcast_sensor_data (fun c => c == 1) [1, 2, 3] = ([2, 3], [3]) := by
  decide

/-- C2, counterexample: a POST /actions command with left_motor=150 (or
-150) is answered with a validation rejection and is not ingested: the
state is unchanged, nothing is delivered, and the cache still holds 0,
not the clamped 100. -/
theorem post_action_oob_is_rejected_not_clamped :
    create_action (Except.ok ()) 0 "t" (fun _ => false) (fun _ => false)
        ⟨150, 0, none⟩ initialState
      = (initialState, ActionResult.unprocessable, [])
    ∧ create_action (Except.ok ()) 0 "t" (fun _ => false) (fun _ => false)
        ⟨-150, 0, none⟩ initialState
      = (initialState, ActionResult.unprocessable, [])
    ∧ (create_action (Except.ok ()) 0 "t" (fun _ => false) (fun _ => false)
        ⟨150, 0, none⟩ initialState).1.lastAction.left_motor ≠ 100 := by
  refine ⟨by decide, by decide, by decide⟩

/-- C2, amended: a POST /actions command with left_motor=150 or -150 is
rejected by the ActionPayload range validation (ge -100, le 100) before
the handler runs — the request fails and nothing is stored, cached or
broadcast; a command that passes validation is ingested with both
setpoints unchanged (the handler's clamp is an identity on validated
values). -/
theorem post_action_validation_rejects_oob_and_keeps_valid :
    (∀ (now : ℚ) (cA : String) (fD fR : Conn → Bool) (p : ActionPayload)
        (st : ServerState), (p.left_motor = 150 ∨ p.left_motor = -150) →
      create_action (Except.ok ()) now cA fD fR p st
        = (st, ActionResult.unprocessable, []))
    ∧ (∀ (now : ℚ) (cA : String) (fD fR : Conn → Bool) (p : ActionPayload)
        (st : ServerState), validActionPayload p = true →
      (create_action (Except.ok ()) now cA fD fR p st).1.lastAction.left_motor
          = (p.left_motor : ℚ)
        ∧ (create_action (Except.ok ()) now cA fD fR p st).1.lastAction.right_motor
          = (p.right_motor : ℚ)) := by
  constructor
  · intro now cA fD fR p st hl
    rcases hl with h | h <;> simp [create_action, validActionPayload, h]
  · intro now cA fD fR p st hv
    have hb : ((-100 ≤ p.left_motor ∧ p.left_motor ≤ 100)
        ∧ -100 ≤ p.right_motor ∧ p.right_motor ≤ 100) := by
      simpa [validActionPayload, Bool.and_eq_true, decide_eq_true_eq] using hv
    constructor
    · simp [create_action, hv, clampInt_eq_self hb.1.1 hb.1.2]
    · simp [create_action, hv, clampInt_eq_self hb.2.1 hb.2.2]

/-- C2, witness: left_motor=150 is rejected with the state unchanged,
while a validated command (40, -70) is ingested with its own values. -/
theorem post_action_validation_rejects_oob_and_keeps_valid_witness :
    create_action (Except.ok ()) 1 "t" (fun _ => false) (fun _ => false)
        ⟨150, 30, some "api"⟩ sampleState
      = (sampleState, ActionResult.unprocessable, [])
    ∧ ((create_action (Except.ok ()) 1 "t" (fun _ => false) (fun _ => false)
          ⟨40, -70, some "api"⟩ sampleState).1.lastAction.left_motor
        = (((40 : Int)) : ℚ)
      ∧ (create_action (Except.ok ()) 1 "t" (fun _ => false) (fun _ => false)
          ⟨40, -70, some "api"⟩ sampleState).1.lastAction.right_motor
        = (((-70 : Int)) : ℚ)) :=
  ⟨post_action_validation_rejects_oob_and_keeps_valid.1 1 "t" (fun _ => false)
      (fun _ => false) ⟨150, 30, some "api"⟩ sampleState (Or.inl rfl),
    post_action_validation_rejects_oob_and_keeps_valid.2 1 "t" (fun _ => false)
      (fun _ => false) ⟨40, -70, some "api"⟩ sampleState (by decide)⟩

/-- C3: on both command-ingress paths, a durable-storage failure is
reported to the immediate caller (HTTP 500 on POST /actions, an error
payload on the robot socket), the state — last_action cache included —
is unchanged, and nothing is broadcast to dashboards or robots. -/
theorem storage_failure_reported_cache_untouched (e : String) (now : ℚ)
    (cA : String) (fD fR : Conn → Bool) (st : ServerState) :
    (∀ p : ActionPayload, validActionPayload p = true →
      create_action (Except.error e) now cA fD fR p st
        = (st, ActionResult.serverError ("Error storing action: " ++ e), []))
    ∧ (∀ (fields : List (String × JsonVal)) (lv rv : JsonVal) (lm rm : ℚ),
        jsonGet fields "left_motor" = some lv →
        jsonGet fields "right_motor" = some rv →
        clampVal lv = Except.ok lm → clampVal rv = Except.ok rm →
        robot_websocket_step (Except.error e) now cA fD (RobotMsg.obj fields) st
          = (st, [WsPayload.errPayload ("Database error: " ++ e)], [])) := by
  constructor
  · intro p hp
    simp [create_action, hp]
  · intro fields lv rv lm rm h1 h2 h3 h4
    simp [robot_websocket_step, h1, h2, h3, h4]

/-- C3, witness: a failing commit with message "boom" on each path, from
a state with two dashboards and a robot registered. -/
theorem storage_failure_reported_cache_untouched_witness :
    create_action (Except.error "boom") 0 "t" (fun _ => false) (fun _ => false)
        ⟨10, -10, none⟩ sampleState
      = (sampleState, ActionResult.serverError ("Error storing action: " ++ "boom"), [])
    ∧ robot_websocket_step (Except.error "boom") 0 "t" (fun _ => false)
        (RobotMsg.obj [("left_motor", JsonVal.num 5), ("right_motor", JsonVal.num 6)])
        sampleState
      = (sampleState, [WsPayload.errPayload ("Database error: " ++ "boom")], []) :=
  ⟨(storage_failure_reported_cache_untouched "boom" 0 "t" (fun _ => false)
      (fun _ => false) sampleState).1 ⟨10, -10, none⟩ (by decide),
    (storage_failure_reported_cache_untouched "boom" 0 "t" (fun _ => false)
      (fun _ => false) sampleState).2
      [("left_motor", JsonVal.num 5), ("right_motor", JsonVal.num 6)]
      (JsonVal.num 5) (JsonVal.num 6) 5 6 rfl rfl rfl rfl⟩

/-- C4: with dashboards 1 and 2 registered and robot connection 3
registered, a robot frame carrying left_motor 200 and right_motor -200,
with every send succeeding, yields an action_received acknowledgment
with the clamped values 100 and -100 back on the robot connection, and
both dashboards receive the action_update broadcast whose action carries
left_motor 100 and right_motor -100. -/
theorem robot_command_two_dashboards_scenario :
    robot_websocket_step (Except.ok ()) 5 "t" (fun _ => false)
      (RobotMsg.obj [("left_motor", JsonVal.num 200), ("right_motor", JsonVal.num (-200))])
      sampleState
    = ({ sampleState with
          actionStore := [⟨1, 5, 100, -100, "websocket", "t"⟩]
          lastAction := ⟨some 1, 100, -100, some 5, some "websocket", some "t"⟩ },
       [WsPayload.ackPayload 100 (-100) 5 1],
       [(1, WsPayload.actionUpdate ⟨some 1, 100, -100, some 5, some "websocket", some "t"⟩ 5),
        (2, WsPayload.actionUpdate ⟨some 1, 100, -100, some 5, some "websocket", some "t"⟩ 5)]) := by
  decide

/-- C5: after any non-empty sequence of successful POST /sensors ingests,
the telemetry cache — and GET /sensors/latest, which reads it — holds
exactly the last accepted snapshot (its sample_id, timestamp, ir_sensor
and robot_info), regardless of the capture timestamps carried by the
snapshots. -/
theorem telemetry_cache_last_accepted_wins (items : List (SensorPayload × String))
    (fD : Conn → Bool) (st0 : ServerState) (pc : SensorPayload × String)
    (h : items.getLast? = some pc) :
    ∃ c : SensorCache,
      (runSensorIngests items fD st0).lastSensor = some c
        ∧ (get_latest_sensor_data (runSensorIngests items fD st0)).2 = some c
        ∧ c.sample_id = pc.1.sample_id ∧ c.timestamp = pc.1.timestamp
        ∧ c.ir_sensor = pc.1.ir_sensor ∧ c.robot_info = pc.1.robot_info := by
  induction items generalizing st0 with
  | nil => simp at h
  | cons x xs ih =>
    cases xs with
    | nil =>
      have hx : pc = x := by simpa using h.symm
      subst hx
      exact ⟨_, rfl, rfl, rfl, rfl, rfl, rfl⟩
    | cons y ys =>
      have h' : (y :: ys).getLast? = some pc := by
        rw [List.getLast?_cons_cons] at h
        exact h
      exact ih ((store_sensor_data (Except.ok ()) x.2 fD x.1 st0).1) h'

/-- C5, witness: two ingests where the second snapshot carries an earlier
capture timestamp (3 against 10); the cache still holds the second. -/
theorem telemetry_cache_last_accepted_wins_witness :
    ∃ c : SensorCache,
      (runSensorIngests [(samplePayload, "t1"),
          (⟨8, 3, ⟨none, none, none, none⟩, ⟨"EV3", "ev3dev2"⟩⟩, "t2")]
        (fun _ => false) initialState).lastSensor = some c
        ∧ (get_latest_sensor_data (runSensorIngests [(samplePayload, "t1"),
            (⟨8, 3, ⟨none, none, none, none⟩, ⟨"EV3", "ev3dev2"⟩⟩, "t2")]
          (fun _ => false) initialState)).2 = some c
        ∧ c.sample_id = (8 : Int) ∧ c.timestamp = (3 : ℚ)
        ∧ c.ir_sensor = ⟨none, none, none, none⟩
        ∧ c.robot_info = ⟨"EV3", "ev3dev2"⟩ :=
  telemetry_cache_last_accepted_wins
    [(samplePayload, "t1"), (⟨8, 3, ⟨none, none, none, none⟩, ⟨"EV3", "ev3dev2"⟩⟩, "t2")]
    (fun _ => false) initialState
    (⟨8, 3, ⟨none, none, none, none⟩, ⟨"EV3", "ev3dev2"⟩⟩, "t2") (by decide)

/-- C6, counterexample: the state reached from the initial state by one
robot-websocket ingest whose left_motor is the JSON number 50.5 leaves
50.5 in the command cache — a value within [-100, 100] but not an
integer (its denominator is 2), refuting the claim that the cached
setpoints are always integers. -/
theorem robot_float_leaves_noninteger_setpoint :
    (srvRun [Event.robotMsg (Except.ok ()) 0 "t" (fun _ => false)
        (RobotMsg.obj [("left_motor", JsonVal.num (mkRat 101 2)),
          ("right_motor", JsonVal.num 0)])] initialState).lastAction.left_motor
      = mkRat 101 2
    ∧ ((srvRun [Event.robotMsg (Except.ok ()) 0 "t" (fun _ => false)
        (RobotMsg.obj [("left_motor", JsonVal.num (mkRat 101 2)),
          ("right_motor", JsonVal.num 0)])] initialState).lastAction.left_motor).den
      = 2 := by
  refine ⟨by decide, by decide⟩

/-- C6, amended: in every state reachable from the initial state by any
sequence of operations (startup seeding, POST /sensors and POST /actions
ingests, robot-websocket frames, connects and disconnects), both command
cache setpoints lie within [-100, 100] — though on the robot-websocket
path they may be non-integral numbers. -/
theorem command_cache_always_in_range (evs : List Event) :
    motorsInRange (srvRun evs initialState).lastAction :=
  (cmdInv_run evs initialState cmdInv_initial).1

/-- C7: a robot frame that json.loads rejects is answered with exactly
the error payload "Invalid JSON" on the same connection, with the whole
state — robot pool registration, caches and stores included — unchanged,
so any subsequent frame on the connection is processed exactly as it
would have been before the malformed one. -/
theorem invalid_json_error_connection_kept (storage : Except String Unit)
    (now : ℚ) (cA : String) (fD : Conn → Bool) (raw : String) (st : ServerState) :
    robot_websocket_step storage now cA fD (RobotMsg.malformed raw) st
      = (st, [WsPayload.errPayload "Invalid JSON"], [])
    ∧ ∀ (storage2 : Except String Unit) (now2 : ℚ) (cA2 : String)
        (fD2 : Conn → Bool) (m2 : RobotMsg),
        robot_websocket_step storage2 now2 cA2 fD2 m2
          (robot_websocket_step storage now cA fD (RobotMsg.malformed raw) st).1
          = robot_websocket_step storage2 now2 cA2 fD2 m2 st :=
  ⟨rfl, fun _ _ _ _ _ => rfl⟩

/-- C8: unregistering a connection that is absent from both pools is a
no-op on the state — disconnect_dashboard and disconnect_robot each
return the state unchanged, and calling either twice is equally a
no-op. -/
theorem unregister_absent_is_noop (st : ServerState) (ws : Conn)
    (hD : ws ∉ st.dashboards) (hR : ws ∉ st.robots) :
    disconnect_dashboard st ws = st ∧ disconnect_robot st ws = st
      ∧ disconnect_dashboard (disconnect_dashboard st ws) ws = st
      ∧ disconnect_robot (disconnect_robot st ws) ws = st := by
  have h1 : disconnect_dashboard st ws = st := by
    simp [disconnect_dashboard, disconnectPool, hD]
  have h2 : disconnect_robot st ws = st := by
    simp [disconnect_robot, disconnectPool, hR]
  exact ⟨h1, h2, by rw [h1, h1], by rw [h2, h2]⟩

/-- C8, witness: connection 5 is in neither pool of the sample state, and
both disconnects, once and twice, leave it unchanged. -/
theorem unregister_absent_is_noop_witness :
    (5 : Conn) ∉ sampleState.dashboards ∧ (5 : Conn) ∉ sampleState.robots
      ∧ (disconnect_dashboard sampleState 5 = sampleState
        ∧ disconnect_robot sampleState 5 = sampleState
        ∧ disconnect_dashboard (disconnect_dashboard sampleState 5) 5 = sampleState
        ∧ disconnect_robot (disconnect_robot sampleState 5) 5 = sampleState) :=
  ⟨by decide, by decide, unregister_absent_is_noop sampleState 5 (by decide) (by decide)⟩

/-- C9: for any event history made of command-free events (no startup
seeding, no accepted command) that contains a successful POST /sensors
ingest, a dashboard connecting afterwards is registered and receives an
initial_data payload whose last_action is exactly the default dict —
left_motor 0, right_motor 0, timestamp null, source null, with no id and
no created_at — rather than an absent value. -/
theorem late_dashboard_gets_default_last_action (evs1 evs2 : List Event)
    (cA : String) (fD : Conn → Bool) (sp : SensorPayload) (ws : Conn)
    (h : ∀ ev ∈ evs1 ++ Event.postSensor (Except.ok ()) cA fD sp :: evs2,
      CommandFree ev) :
    ∃ c : SensorCache,
      (srvRun (evs1 ++ Event.postSensor (Except.ok ()) cA fD sp :: evs2)
        initialState).lastSensor = some c
      ∧ dashboard_websocket_connect true ws
          (srvRun (evs1 ++ Event.postSensor (Except.ok ()) cA fD sp :: evs2)
            initialState)
        = ({ (srvRun (evs1 ++ Event.postSensor (Except.ok ()) cA fD sp :: evs2)
              initialState) with
            dashboards := (srvRun (evs1 ++ Event.postSensor (Except.ok ()) cA fD sp
              :: evs2) initialState).dashboards ++ [ws] },
          some (WsPayload.initialData c ⟨none, 0, 0, none, none, none⟩)) := by
  have hsplit : srvRun (evs1 ++ Event.postSensor (Except.ok ()) cA fD sp :: evs2)
      initialState
      = srvRun evs2 (srvStep (Event.postSensor (Except.ok ()) cA fD sp)
          (srvRun evs1 initialState)) := by
    simp [srvRun, List.foldl_append]
  have hsome : ((srvRun (evs1 ++ Event.postSensor (Except.ok ()) cA fD sp :: evs2)
      initialState).lastSensor).isSome = true := by
    rw [hsplit]
    apply run_lastSensor_isSome
    simp only [srvStep]
    rw [sensor_ingest_cache]
    rfl
  have hla : (srvRun (evs1 ++ Event.postSensor (Except.ok ()) cA fD sp :: evs2)
        initialState).lastAction
      = initialState.lastAction := run_lastAction_of_commandFree h
  obtain ⟨c, hc⟩ := Option.isSome_iff_exists.mp hsome
  refine ⟨c, hc, ?_⟩
  simp only [dashboard_websocket_connect, hc, hla]
  rfl

/-- C9, witness: the one-event history of a single successful telemetry
ingest, followed by dashboard connection 7 connecting. -/
theorem late_dashboard_gets_default_last_action_witness :
    (∀ ev ∈ ([] ++ Event.postSensor (Except.ok ()) "t" (fun _ => false)
        samplePayload :: []), CommandFree ev)
    ∧ ∃ c : SensorCache,
      (srvRun ([] ++ Event.postSensor (Except.ok ()) "t" (fun _ => false)
        samplePayload :: []) initialState).lastSensor = some c
      ∧ dashboard_websocket_connect true 7
          (srvRun ([] ++ Event.postSensor (Except.ok ()) "t" (fun _ => false)
            samplePayload :: []) initialState)
        = ({ (srvRun ([] ++ Event.postSensor (Except.ok ()) "t" (fun _ => false)
              samplePayload :: []) initialState) with
            dashboards := (srvRun ([] ++ Event.postSensor (Except.ok ()) "t"
              (fun _ => false) samplePayload :: []) initialState).dashboards ++ [7] },
          some (WsPayload.initialData c ⟨none, 0, 0, none, none, none⟩)) := by
  have hfree : ∀ ev ∈ ([] ++ Event.postSensor (Except.ok ()) "t" (fun _ => false)
      samplePayload :: []), CommandFree ev := by
    intro ev hev
    simp only [List.nil_append, List.mem_singleton] at hev
    subst hev
    exact trivial
  exact ⟨hfree, late_dashboard_gets_default_last_action [] [] "t" (fun _ => false)
    samplePayload 7 hfree⟩

/-- C10: a robot frame that parses as a JSON object with both motor keys
but whose left (or right) motor value raises a TypeError inside the
clamp is answered with an error payload carrying the exception message
on the same connection, and the state — robot pool, cache and stores —
is unchanged and nothing is broadcast. -/
theorem nonnumeric_motor_value_rejected_without_mutation
    (storage : Except String Unit) (now : ℚ) (cA : String) (fD : Conn → Bool)
    (fields : List (String × JsonVal)) (lv rv : JsonVal) (st : ServerState)
    (h1 : jsonGet fields "left_motor" = some lv)
    (h2 : jsonGet fields "right_motor" = some rv) :
    (∀ e : String, clampVal lv = Except.error e →
      robot_websocket_step storage now cA fD (RobotMsg.obj fields) st
        = (st, [WsPayload.errPayload e], []))
    ∧ (∀ (lm : ℚ) (e : String), clampVal lv = Except.ok lm →
        clampVal rv = Except.error e →
        robot_websocket_step storage now cA fD (RobotMsg.obj fields) st
          = (st, [WsPayload.errPayload e], [])) := by
  constructor
  · intro e he
    simp [robot_websocket_step, h1, h2, he]
  · intro lm e hlm he
    simp [robot_websocket_step, h1, h2, hlm, he]

/-- C10, witness: a frame whose left_motor is the string "abc" is
answered with the TypeError message and leaves the sample state
unchanged. -/
theorem nonnumeric_motor_value_rejected_without_mutation_witness :
    robot_websocket_step (Except.ok ()) 0 "t" (fun _ => false)
        (RobotMsg.obj [("left_motor", JsonVal.str "abc"),
          ("right_motor", JsonVal.num 0)]) sampleState
      = (sampleState,
        [WsPayload.errPayload
          "TypeError: < not supported between instances of str and int"], []) :=
  (nonnumeric_motor_value_rejected_without_mutation (Except.ok ()) 0 "t"
    (fun _ => false) [("left_motor", JsonVal.str "abc"), ("right_motor", JsonVal.num 0)]
    (JsonVal.str "abc") (JsonVal.num 0) sampleState rfl rfl).1
    "TypeError: < not supported between instances of str and int" rfl
